import Mathlib

/-
Verification of the Book-API request-authorization / middleware core.

This file shallowly embeds the Go sources of the repository:
  * internal/repositories/book_repository.go  (TransferPages)
  * internal/security/jwt.go                  (GenerateToken, ParseToken)
  * internal/middleware/jwt_auth.go           (JWTAuth)
  * internal/middleware/ownership.go          (EnforceOwnership)
  * internal/middleware/owner_or_role         (AllowOwnerOrRole)
  * internal/middleware/ratelimit.go          (RateLimit)
  * internal/middleware/common.go             (Apply, applyMiddleware)

Machine integers are modelled as Int (no overflow is relevant to the claims),
fallible database calls are modelled with explicit fault-injection parameters
(an `Option String` that is `some e` when the driver reports error `e`), and
Go's dynamically typed values (context values, JSON claim values) are modelled
by explicit sum types.
-/

namespace BookAPI

/-! ### Dynamically typed values

Go context values (`interface{}`) and decoded JSON claim values. A JSON number
decoded by encoding/json is a float64; every claim relevant here is an integral
number, so numbers are carried as `Int` (the Go code converts with
`int(x.(float64))`, identity on integral values). -/

inductive JsonValue where
  | num (n : Int)
  | str (s : String)
  | boolean (b : Bool)
  | null
deriving DecidableEq

/-- Claim set of a JWT (jwt.MapClaims): a finite map from claim name to value,
modelled as an association list (first binding wins, as in a Go map with
distinct keys). -/
abbrev Claims := List (String × JsonValue)

/-- Map lookup `claims[k]` with the comma-ok idiom: `none` exactly when the
key is absent. -/
def lookupClaim : Claims → String → Option JsonValue
  | [], _ => none
  | (k, v) :: rest, key => if k = key then some v else lookupClaim rest key

/-- A value stored in a request context (`context.WithValue` stores
`interface{}`); the pipeline only ever stores ints (user id) and strings
(user role). -/
inductive GoValue where
  | vInt (n : Int)
  | vStr (s : String)
deriving DecidableEq

/-! ### Data model (internal/models) -/

/-- models.Book: one row of the `books` table. -/
structure Book where
  ID : Int
  Title : String
  Author : String
  Pages : Int
  OwnerID : Int
deriving DecidableEq

/-- models.TransferRequest. -/
structure TransferRequest where
  FromID : Int
  ToID : Int
  Pages : Int
deriving DecidableEq

/-! ### repositories.TransferPages (book_repository.go, lines 106-142)

The books table is a list of rows (ids are primary keys, but nothing below
assumes uniqueness: `UPDATE ... WHERE id = $2` touches every matching row,
which is what `updatePagesBy` does).  `TransferPages` runs inside one
transaction: `Begin`, two `Exec`s, and a deferred resolution that commits when
the local `err` is nil and rolls back otherwise.  Fault injection: each of the
four fallible driver calls gets an `Option String` parameter, `some e` meaning
the call fails with error `e`.

The function's `error` result is NOT a named return value.  `return nil` at
the end therefore fixes the returned value to nil BEFORE the deferred closure
runs; the closure's `err = tx.Commit()` assigns a local variable and cannot
change the returned value.  Hence on a commit failure the call returns nil
while the transaction was never committed: the first component below is the
committed database state after the call, the second the returned error. -/

/-- Effect of `UPDATE books SET pages = pages + delta WHERE id = bid`. -/
def updatePagesBy (delta : Int) (bid : Int) (rows : List Book) : List Book :=
  rows.map fun b => if b.ID = bid then { b with Pages := b.Pages + delta } else b

/-- Pages column of the first row with the given id (as `SELECT pages ... WHERE id =` would read it). -/
def pagesOf (rows : List Book) (bid : Int) : Option Int :=
  (rows.find? fun b => b.ID = bid).map fun b => b.Pages

/-- PgBookRepository.TransferPages. Returns (committed table state, returned error). -/
def TransferPages (req : TransferRequest) (rows : List Book)
    (beginErr srcErr dstErr commitErr : Option String) : List Book × Option String :=
  match beginErr with
  | some e => (rows, some e)
  | none =>
    match srcErr with
    | some e => (rows, some e)
    | none =>
      let r1 := updatePagesBy (-req.Pages) req.FromID rows
      match dstErr with
      | some e => (rows, some e)
      | none =>
        let r2 := updatePagesBy req.Pages req.ToID r1
        match commitErr with
        | some _ => (rows, none)
        | none => (r2, none)

/-! ### security/jwt.go

A signed token is modelled as the record the jwt library would serialize: its
claim set and the key it was signed with (an HS256 signature verifies exactly
against the signing key).  The serialization to the wire string is abstracted
by a decode parameter `jwtDecode : String → Option SignedToken` standing for
`jwt.Parse`'s decoding of a wire string (garbage decodes to `none`); claims
about concrete tokens instantiate it. -/

structure SignedToken where
  claims : Claims
  key : String
deriving DecidableEq

/-- security.GenerateToken (jwt.go lines 26-38): claims embed user id, role,
`exp` exactly 24 hours (86400 Unix seconds) ahead of `now`, and `iat := now`;
the token is signed with `secret`. -/
def GenerateToken (userID : Int) (userRole : String) (secret : String) (now : Int) : SignedToken :=
  { claims := [("user_id", .num userID), ("user_role", .str userRole),
               ("exp", .num (now + 86400)), ("iat", .num now)],
    key := secret }

/-- strings.ReplaceAll(s, " ", "") on the character list: deletes every space
character and nothing else. -/
def removeSpacesList : List Char → List Char
  | [] => []
  | c :: cs => if c = ' ' then removeSpacesList cs else c :: removeSpacesList cs

/-- strings.ReplaceAll(tokenStr, " ", ""). -/
def removeSpaces (s : String) : String :=
  ⟨removeSpacesList s.data⟩

/-- Expiry validation done inside jwt.Parse (jwt/v5 default validator): a
token with a numeric `exp` claim is valid only while `now < exp`; a missing
`exp` is not an error. -/
def expOK (claims : Claims) (now : Int) : Bool :=
  match lookupClaim claims "exp" with
  | some (.num e) => decide (now < e)
  | _ => true

/-- security.ParseToken (jwt.go lines 41-61): strips the spaces out of the raw
string, decodes it, and accepts exactly when the signature matches `secret`
and the token is unexpired at `now`, returning the claim set. -/
def ParseToken (jwtDecode : String → Option SignedToken) (now : Int)
    (tokenStr secret : String) : Option Claims :=
  match jwtDecode (removeSpaces tokenStr) with
  | none => none
  | some tok => if tok.key == secret && expOK tok.claims now then some tok.claims else none

/-! ### middleware/jwt_auth.go -/

/-- strings.HasPrefix on the underlying character lists. -/
def goHasPref (s pre : String) : Bool :=
  pre.data.isPrefixOf s.data

/-- strings.TrimPrefix: drop the prefix when present, else return `s` unchanged. -/
def goTrimPref (s pre : String) : String :=
  if goHasPref s pre then ⟨s.data.drop pre.data.length⟩ else s

/-- Outcome of the JWTAuth stage on one request: a short-circuit rejection
(`utils.WriteSafeError status msg` and return), passing control to `next` with
the decoded identity attached to the context, or a Go runtime panic. -/
inductive MWOutcome where
  | reject (status : Nat) (msg : String)
  | proceed (userID : Int) (userRole : String)
  | panicked
deriving DecidableEq

/-- middleware.JWTAuth (jwt_auth.go lines 34-74) applied to the request's
Authorization header value (`""` when the header is absent).  Note the claim
extraction at lines 64-65 uses the unchecked type assertions
`int(userIDRaw.(float64))` and `userRoleRaw.(string)`: a present claim of the
wrong dynamic type panics. -/
def JWTAuth (jwtDecode : String → Option SignedToken) (now : Int) (secret : String)
    (auth : String) : MWOutcome :=
  if auth.data = [] ∨ goHasPref auth "Bearer" = false then
    .reject 401 "Unauthorized"
  else
    let tokenStr := goTrimPref auth "Bearer"
    match ParseToken jwtDecode now tokenStr secret with
    | none => .reject 401 "Invalid or expired token."
    | some claims =>
      match lookupClaim claims "user_id" with
      | none => .reject 401 "Missing user_id in token."
      | some userIDRaw =>
        match lookupClaim claims "user_role" with
        | none => .reject 401 "Missing user_role in token."
        | some userRoleRaw =>
          match userIDRaw with
          | .num uid =>
            match userRoleRaw with
            | .str role => .proceed uid role
            | _ => .panicked
          | _ => .panicked

/-! ### middleware/ownership.go and the role-or-ownership middleware -/

/-- Numeric value of a list of decimal digits (empty or non-digit input is a
parse failure). -/
def digitsVal (cs : List Char) : Option Nat :=
  if cs = [] then none
  else if cs.all (fun c => c.isDigit) then
    some (cs.foldl (fun acc c => acc * 10 + (c.toNat - 48)) 0)
  else none

/-- strconv.Atoi: optional sign followed by at least one decimal digit (the
int-range overflow check is irrelevant to the claims and not modelled).
`none` is the error case; Atoi's accompanying int result on error is 0, which
callers that discard the error observe (see `AllowOwnerOrRole`). -/
def goAtoi (s : String) : Option Int :=
  match s.data with
  | [] => none
  | c :: cs =>
    if c = '-' then (digitsVal cs).map (fun n => -(n : Int))
    else if c = '+' then (digitsVal cs).map (fun n => (n : Int))
    else (digitsVal (c :: cs)).map (fun n => (n : Int))

/-- Outcome of an authorization stage on one request: a short-circuit
rejection (status, message written by utils.WriteSafeError), invocation of the
downstream handler (`next.ServeHTTP`), or a Go runtime panic. -/
inductive AuthzOutcome where
  | reject (status : Nat) (msg : String)
  | proceedNext
  | panicked
deriving DecidableEq

/-- middleware.EnforceOwnership (ownership.go lines 30-67) on one request:
`ctxUserID` is the context value at UserIDKey (read with the comma-ok type
assertion `.(int)`), `idStr` the route parameter named `paramName`, and
`loader` the injected OwnerLoader (`.error e` when it returns a non-nil
error). -/
def EnforceOwnership (ctxUserID : Option GoValue) (idStr : String)
    (loader : Int → Except String Int) : AuthzOutcome :=
  match ctxUserID with
  | some (.vInt userID) =>
    match goAtoi idStr with
    | none => .reject 400 "Invalid ID"
    | some resourceID =>
      match loader resourceID with
      | .error _ => .reject 500 "Could not verify ownership"
      | .ok ownerID =>
        if userID ≠ ownerID then .reject 403 "Forbidden: not owner"
        else .proceedNext
  | _ => .reject 401 "Unauthorized"

/-- middleware.AllowOwnerOrRole on one request.  Faithful to the source order:
role is read with a comma-ok assertion (defaulting to ""), the user id with an
UNCHECKED `.(int)` assertion (panic when absent or non-int), the route id via
Atoi with the error discarded (0 on failure), then the loader is invoked
UNCONDITIONALLY (its error discarded), and only afterwards is the role set
consulted; admission requires `userID == ownerID` or role membership.  The
loader returns (ownerID, error); the Bool in the result records whether the
loader was invoked during the request. -/
def AllowOwnerOrRole (allowedRoles : List String) (ctxRole ctxUserID : Option GoValue)
    (idStr : String) (loader : Int → Int × Option String) : AuthzOutcome × Bool :=
  let role := match ctxRole with
    | some (.vStr s) => s
    | _ => ""
  match ctxUserID with
  | some (.vInt userID) =>
    let resourceID := (goAtoi idStr).getD 0
    let ownerID := (loader resourceID).1
    let isAllowed := allowedRoles.contains role
    if userID ≠ ownerID ∧ isAllowed = false then (.reject 403 "Forbidden", true)
    else (.proceedNext, true)
  | _ => (.panicked, false)

/-! ### middleware/ratelimit.go (the in-process RateLimit middleware)

Time is in seconds (`time.Since(e.LastSeen) > limitWindow` becomes
`now - e.LastSeen > 60`); the visitors map is an association list mutated in
place. -/

/-- One entry of the `visitors` map. -/
structure RateLimitEntry where
  LastSeen : Int
  Count : Int
deriving DecidableEq

/-- Window length: 1 minute, in seconds. -/
def limitWindow : Int := 60

/-- Cap: 60 requests per window. -/
def requestCap : Int := 60

/-- The `visitors` map, keyed by client ip (r.RemoteAddr). -/
abbrev Visitors := List (String × RateLimitEntry)

/-- Go map read `visitors[ip]` with the comma-ok idiom. -/
def lookupVisitor : Visitors → String → Option RateLimitEntry
  | [], _ => none
  | (k, e) :: rest, ip => if k = ip then some e else lookupVisitor rest ip

/-- Go map write `visitors[ip] = e` (also covers the in-place mutation of the
entry through its pointer). -/
def setVisitor : Visitors → String → RateLimitEntry → Visitors
  | [], ip, e => [(ip, e)]
  | (k, e0) :: rest, ip, e =>
    if k = ip then (ip, e) :: rest else (k, e0) :: setVisitor rest ip e

/-- middleware.RateLimit (ratelimit.go lines 59-96) on one request from `ip`
arriving at time `now`: returns the updated visitors map and whether the
request was admitted (passed to `next`) rather than rejected with 429.
Absent entry or a window elapsed since LastSeen resets the entry to count 1
and admits; otherwise the count is incremented and LastSeen updated, and the
request is rejected exactly when the incremented count exceeds the cap. -/
def RateLimit (vs : Visitors) (ip : String) (now : Int) : Visitors × Bool :=
  match lookupVisitor vs ip with
  | none => (setVisitor vs ip ⟨now, 1⟩, true)
  | some entry =>
    if now - entry.LastSeen > limitWindow then
      (setVisitor vs ip ⟨now, 1⟩, true)
    else
      let updated : RateLimitEntry := ⟨now, entry.Count + 1⟩
      let vs2 := setVisitor vs ip updated
      if updated.Count > requestCap then (vs2, false) else (vs2, true)

/-- A sequence of requests from one client, processed in order; returns the
final map and the per-request admission decisions. -/
def runRateLimit (vs : Visitors) (ip : String) : List Int → Visitors × List Bool
  | [] => (vs, [])
  | t :: ts =>
    let step := RateLimit vs ip t
    let rest := runRateLimit step.1 ip ts
    (rest.1, step.2 :: rest.2)

/-! ### middleware/common.go: the composer and its four default stages

A handler's observable behaviour on a request is its ordered trace of events
(log lines, header writes and response writes, recorded as strings) together
with a possibly propagating panic value.  Events a stage emits after calling
`next` are only emitted when `next` returned normally, exactly as in Go. -/

/-- The request data the four default stages inspect. -/
structure Request where
  method : String
  path : String
  userAgent : String
deriving DecidableEq

/-- Observable result of running a handler on a request: ordered event trace,
and `some p` when the handler panicked with value `p` (events before the
panic are kept). -/
structure HOut where
  trace : List String
  panicVal : Option String
deriving DecidableEq

/-- http.HandlerFunc, observably. -/
abbrev HandlerFunc := Request → HOut

/-- The `func(http.HandlerFunc) http.HandlerFunc` middleware shape of common.go. -/
abbrev Middleware := HandlerFunc → HandlerFunc

/-- requestLoggingMiddleware (common.go lines 59-71): logs a Started line,
runs `next`, then logs a Completed line (skipped when `next` panics, since the
panic propagates past the log call). -/
def requestLoggingMiddleware (next : HandlerFunc) : HandlerFunc := fun r =>
  let started := "Started HTTP Request " ++ r.method ++ " " ++ r.path
  let o := next r
  match o.panicVal with
  | some p => ⟨started :: o.trace, some p⟩
  | none => ⟨started :: o.trace ++ ["Completed " ++ r.method ++ " " ++ r.path], none⟩

/-- recoveryMiddleware (common.go lines 74-87): runs `next`; a panic from
`next` is caught by the deferred recover, logged, and turned into a 500
response; a normal return passes through untouched. -/
def recoveryMiddleware (next : HandlerFunc) : HandlerFunc := fun r =>
  let o := next r
  match o.panicVal with
  | some p =>
    ⟨o.trace ++ ["Recovered from panic: " ++ p, "write 500 Internal Server Error"], none⟩
  | none => o

/-- corsMiddleware (common.go lines 90-107): sets the three CORS headers, and
for an OPTIONS request writes 204 and short-circuits (never calling `next`);
otherwise runs `next`. -/
def corsMiddleware (next : HandlerFunc) : HandlerFunc := fun r =>
  let hdrs := ["set Access-Control-Allow-Origin *",
               "set Access-Control-Allow-Methods GET, POST, PUT, DELETE, OPTIONS",
               "set Access-Control-Allow-Headers Content-Type"]
  if r.method = "OPTIONS" then ⟨hdrs ++ ["write 204 No Content"], none⟩
  else
    let o := next r
    ⟨hdrs ++ o.trace, o.panicVal⟩

/-- userAgentLogMiddleware (common.go lines 110-118): logs the User-Agent and
runs `next`. -/
def userAgentLogMiddleware (next : HandlerFunc) : HandlerFunc := fun r =>
  let o := next r
  ⟨("User-Agent: " ++ r.userAgent) :: o.trace, o.panicVal⟩

/-- middleware.applyMiddleware (common.go lines 45-52): the loop
`for i := len(middlewares)-1; i >= 0; i-- { h = middlewares[i](h) }` wraps the
handler starting from the LAST listed middleware, so it computes the right
fold `middlewares[0] (middlewares[1] (... middlewares[n-1] h))`. -/
def applyMiddleware (h : HandlerFunc) (middlewares : List Middleware) : HandlerFunc :=
  middlewares.foldr (fun m acc => m acc) h

/-- middleware.Apply (common.go lines 40-42). -/
def Apply (h : HandlerFunc) : HandlerFunc :=
  applyMiddleware h
    [requestLoggingMiddleware, recoveryMiddleware, corsMiddleware, userAgentLogMiddleware]

/-- A generic instrumentation stage used to observe execution order: it
records an entry event before its inner handler and an exit event after it. -/
def wrapStage (name : String) : Middleware := fun next r =>
  let o := next r
  ⟨(name ++ ":in") :: o.trace ++ [name ++ ":out"], o.panicVal⟩

/-! ### Theorems -/

/-- C1: if the destination-side UPDATE of TransferPages fails, the transaction
is rolled back — the committed table (in particular the source book's pages
value) is exactly its pre-call state — and the call returns the non-nil error;
moreover a failure of either UPDATE always surfaces as a non-nil returned
error. -/
theorem transferPages_destFail_rollback (req : TransferRequest) (rows : List Book)
    (e : String) (c : Option String) :
    TransferPages req rows none none (some e) c = (rows, some e) ∧
    pagesOf (TransferPages req rows none none (some e) c).1 req.FromID = pagesOf rows req.FromID ∧
    (∀ (se : String) (d c2 : Option String),
      (TransferPages req rows none (some se) d c2).2 = some se) :=
  ⟨rfl, rfl, fun _ _ _ => rfl⟩

/-- C2 (failing input): when both UPDATEs succeed but tx.Commit() fails,
TransferPages still returns nil — the deferred `err = tx.Commit()` assigns a
local variable, not the (unnamed) result — while the transaction was never
committed: the source book still has its 100 pages instead of the 95 the
claim promises on a nil return. -/
theorem transferPages_commitFail_returnsNil :
    TransferPages ⟨1, 2, 5⟩
        [⟨1, "Book One", "Author One", 100, 7⟩, ⟨2, "Book Two", "Author Two", 50, 8⟩]
        none none none (some "commit failed")
      = ([⟨1, "Book One", "Author One", 100, 7⟩, ⟨2, "Book Two", "Author Two", 50, 8⟩],
         none) ∧
    pagesOf (TransferPages ⟨1, 2, 5⟩
        [⟨1, "Book One", "Author One", 100, 7⟩, ⟨2, "Book Two", "Author Two", 50, 8⟩]
        none none none (some "commit failed")).1 1 = some 100 :=
  ⟨rfl, by decide⟩

/-- C3 (failing input): a token that verifies (right key, unexpired) but whose
user_id claim is a string — or whose user_role claim is a number — makes
JWTAuth hit the unchecked type assertions `int(userIDRaw.(float64))` /
`userRoleRaw.(string)` and panic instead of writing a 401 rejection. -/
theorem jwtAuth_malformed_claim_panics :
    JWTAuth (fun s => if s = "t" then
        some ⟨[("user_id", .str "abc"), ("user_role", .str "admin"), ("exp", .num 99999)], "k"⟩
      else none) 0 "k" "Bearer t" = .panicked ∧
    JWTAuth (fun s => if s = "t" then
        some ⟨[("user_id", .num 7), ("user_role", .num 3), ("exp", .num 99999)], "k"⟩
      else none) 0 "k" "Bearer t" = .panicked := by
  exact ⟨by decide, by decide⟩

/-- C4 (counterexample): in AllowOwnerOrRole the owner loader IS invoked on a
request whose context role ("admin") belongs to the allowed set {"admin"} —
the lookup at line 43 runs unconditionally, before the role set is consulted
at line 45 — contradicting the claim that the loader is never called when the
role check admits. -/
theorem allowOwnerOrRole_loaderCalled_counterexample :
    (AllowOwnerOrRole ["admin"] (some (.vStr "admin")) (some (.vInt 1)) "7"
        (fun _ => (99, none))).2 = true ∧
    ["admin"].contains "admin" = true := by
  exact ⟨by decide, by decide⟩

/-- C4 (amended): on a request carrying an integer user id and a string role,
AllowOwnerOrRole admits exactly when the subject owns the resource or the role
is in the allowed set — but the owner loader is invoked on every such request
(second component true), with no role-first short-circuit. -/
theorem allowOwnerOrRole_admission (allowedRoles : List String) (roleStr : String)
    (uid : Int) (idStr : String) (loader : Int → Int × Option String) :
    AllowOwnerOrRole allowedRoles (some (.vStr roleStr)) (some (.vInt uid)) idStr loader
      = (if uid = (loader ((goAtoi idStr).getD 0)).1 ∨ allowedRoles.contains roleStr = true
          then .proceedNext else .reject 403 "Forbidden", true) := by
  unfold AllowOwnerOrRole
  by_cases h1 : uid = (loader ((goAtoi idStr).getD 0)).1
  · simp [h1]
  · by_cases h2 : allowedRoles.contains roleStr = true
    · simp [h1, h2]
      split <;> simp_all
    · simp [h1, h2]
      split <;> simp_all

/-- C9: a request whose context holds no integer user id makes AllowOwnerOrRole
panic on its unchecked `.(int)` type assertion (no 401/403 is written), while
EnforceOwnership on the same identity state uses the comma-ok assertion and
writes 401 Unauthorized without panicking. -/
theorem allowOwnerOrRole_missing_identity (ctxUserID : Option GoValue)
    (hnotint : ∀ n : Int, ctxUserID ≠ some (.vInt n))
    (allowedRoles : List String) (ctxRole : Option GoValue) (idStr : String)
    (loader : Int → Int × Option String) (loader2 : Int → Except String Int) :
    AllowOwnerOrRole allowedRoles ctxRole ctxUserID idStr loader = (.panicked, false) ∧
    EnforceOwnership ctxUserID idStr loader2 = .reject 401 "Unauthorized" := by
  cases ctxUserID with
  | none => exact ⟨rfl, rfl⟩
  | some v =>
    cases v with
    | vInt n => exact absurd rfl (hnotint n)
    | vStr s => exact ⟨rfl, rfl⟩

/-- C9 (witness): the missing-identity comparison at a concrete request with
no user id in the context. -/
theorem allowOwnerOrRole_missing_identity_witness :
    AllowOwnerOrRole ["admin"] (some (.vStr "admin")) none "3" (fun _ => (0, none))
        = (.panicked, false) ∧
    EnforceOwnership none "3" (fun _ => .ok 0) = .reject 401 "Unauthorized" :=
  allowOwnerOrRole_missing_identity none (fun n => by simp)
    ["admin"] (some (.vStr "admin")) "3" (fun _ => (0, none)) (fun _ => .ok 0)

/-- C6: for an authenticated request whose route id parses, EnforceOwnership
passes control to the downstream handler exactly when the subject id equals
the owner id the injected lookup returns; a differing owner yields 403
"Forbidden: not owner" and a failing lookup yields 500 "Could not verify
ownership" (in both cases the outcome is a rejection, so the downstream
handler never runs). -/
theorem enforceOwnership_decision (uid : Int) (idStr : String) (rid : Int)
    (loader : Int → Except String Int)
    (hparse : goAtoi idStr = some rid) :
    (∀ ownerID, loader rid = .ok ownerID →
      ((EnforceOwnership (some (.vInt uid)) idStr loader = .proceedNext ↔ uid = ownerID) ∧
       (uid ≠ ownerID →
         EnforceOwnership (some (.vInt uid)) idStr loader = .reject 403 "Forbidden: not owner"))) ∧
    (∀ e, loader rid = .error e →
      EnforceOwnership (some (.vInt uid)) idStr loader = .reject 500 "Could not verify ownership") := by
  constructor
  · intro ownerID hok
    by_cases h : uid = ownerID <;> simp [EnforceOwnership, hparse, hok, h]
  · intro e herr
    simp [EnforceOwnership, hparse, herr]

/-- C6 (witness): subject 2 owns resource 7 and is admitted; subject 1 is
rejected as not-owner; a failing lookup is rejected as a server fault. -/
theorem enforceOwnership_decision_witness :
    EnforceOwnership (some (.vInt 2)) "7" (fun _ => Except.ok 2) = .proceedNext ∧
    EnforceOwnership (some (.vInt 1)) "7" (fun _ => Except.ok 2)
      = .reject 403 "Forbidden: not owner" ∧
    EnforceOwnership (some (.vInt 1)) "7" (fun _ => Except.error "db down")
      = .reject 500 "Could not verify ownership" := by
  refine ⟨?_, ?_, ?_⟩
  · exact ((enforceOwnership_decision 2 "7" 7 (fun _ => Except.ok 2) (by decide)).1
      2 rfl).1.mpr rfl
  · exact ((enforceOwnership_decision 1 "7" 7 (fun _ => Except.ok 2) (by decide)).1
      2 rfl).2 (by decide)
  · exact (enforceOwnership_decision 1 "7" 7 (fun _ => Except.error "db down") (by decide)).2
      "db down" rfl

/-- Helper: a list is a prefix (in the Boolean `isPrefixOf` sense) of itself
followed by anything. -/
theorem isPrefixOf_append_self (l1 l2 : List Char) : l1.isPrefixOf (l1 ++ l2) = true := by
  induction l1 with
  | nil => cases l2 <;> rfl
  | cons c cs ih => simp [List.isPrefixOf, ih]

/-- Helper: `goHasPref` accepts a string built by prepending the tested
prefix. -/
theorem goHasPref_append (pre t : String) : goHasPref (pre ++ t) pre = true := by
  show pre.data.isPrefixOf (pre ++ t).data = true
  rw [String.data_append]
  exact isPrefixOf_append_self _ _

/-- Helper: `goTrimPref` strips exactly the prepended prefix. -/
theorem goTrimPref_append (pre t : String) : goTrimPref (pre ++ t) pre = t := by
  rw [goTrimPref, if_pos (goHasPref_append pre t), String.data_append, List.drop_left]

/-- Helper: stripping spaces is character filtering — every space character is
deleted and no other character is touched. -/
theorem removeSpacesList_eq_filter (cs : List Char) :
    removeSpacesList cs = cs.filter (fun c => c ≠ ' ') := by
  induction cs with
  | nil => rfl
  | cons c cs ih => by_cases h : c = ' ' <;> simp [removeSpacesList, h, ih]

/-- C10: JWTAuth accepts a header that is "Bearer" immediately followed by a
valid token, with no space separator: only the prefix is checked and trimmed,
and ParseToken removes every space character — and only space characters —
from the remainder before decoding. -/
theorem jwtAuth_bearer_no_space :
    (∀ (jwtDecode : String → Option SignedToken) (now : Int) (secret t : String)
       (tok : SignedToken) (uid : Int) (role : String),
       removeSpaces t = t →
       jwtDecode t = some tok →
       tok.key = secret →
       expOK tok.claims now = true →
       lookupClaim tok.claims "user_id" = some (.num uid) →
       lookupClaim tok.claims "user_role" = some (.str role) →
       JWTAuth jwtDecode now secret ("Bearer" ++ t) = .proceed uid role) ∧
    (∀ s : String, (removeSpaces s).data = s.data.filter (fun c => c ≠ ' ')) := by
  constructor
  · intro jwtDecode now secret t tok uid role hns hdec hkey hexp hid hrole
    have hne : ("Bearer" ++ t).data ≠ [] := by
      rw [String.data_append]
      intro h
      exact absurd (List.append_eq_nil.mp h).1 (by decide)
    have hcond : ¬(("Bearer" ++ t).data = [] ∨ goHasPref ("Bearer" ++ t) "Bearer" = false) := by
      simp [hne, goHasPref_append]
    rw [JWTAuth, if_neg hcond]
    have htrim : goTrimPref ("Bearer" ++ t) "Bearer" = t := goTrimPref_append "Bearer" t
    simp only [htrim]
    rw [ParseToken, hns, hdec]
    simp only [hkey, beq_self_eq_true, hexp, Bool.and_self, if_true]
    rw [hid, hrole]
  · intro s
    exact removeSpacesList_eq_filter s.data

/-- C10 (witness): the concatenated header "Bearer" ++ "tok" authenticates a
concrete valid token, and space-stripping on "a b" deletes exactly the space. -/
theorem jwtAuth_bearer_no_space_witness :
    JWTAuth (fun s => if s = "tok" then
        some ⟨[("user_id", .num 5), ("user_role", .str "admin"), ("exp", .num 100)], "sec"⟩
      else none) 0 "sec" ("Bearer" ++ "tok") = .proceed 5 "admin" ∧
    (removeSpaces "a b").data = "a b".data.filter (fun c => c ≠ ' ') := by
  constructor
  · exact jwtAuth_bearer_no_space.1
      (fun s => if s = "tok" then
        some ⟨[("user_id", .num 5), ("user_role", .str "admin"), ("exp", .num 100)], "sec"⟩
      else none) 0 "sec" "tok"
      ⟨[("user_id", .num 5), ("user_role", .str "admin"), ("exp", .num 100)], "sec"⟩
      5 "admin" (by decide) (by decide) rfl (by decide) (by decide) (by decide)
  · exact jwtAuth_bearer_no_space.2 "a b"

/-- C7: a token issued by GenerateToken(id, role, key) carries exactly the
issued id and role, an `exp` exactly 24 hours (86400 s) after the `iat`
issuance instant, and parses back with the same key at any time before
expiry to exactly those claims; parsing with any different key fails. -/
theorem token_round_trip :
    ∀ (jwtDecode : String → Option SignedToken) (s : String) (uid : Int)
      (role secret : String) (now : Int),
      removeSpaces s = s →
      jwtDecode s = some (GenerateToken uid role secret now) →
      (∀ t2 : Int, t2 < now + 86400 →
        ParseToken jwtDecode t2 s secret = some (GenerateToken uid role secret now).claims) ∧
      lookupClaim (GenerateToken uid role secret now).claims "user_id" = some (.num uid) ∧
      lookupClaim (GenerateToken uid role secret now).claims "user_role" = some (.str role) ∧
      lookupClaim (GenerateToken uid role secret now).claims "exp" = some (.num (now + 86400)) ∧
      lookupClaim (GenerateToken uid role secret now).claims "iat" = some (.num now) ∧
      (∀ (secret2 : String) (t2 : Int), secret2 ≠ secret →
        ParseToken jwtDecode t2 s secret2 = none) := by
  intro jwtDecode s uid role secret now hns hdec
  refine ⟨?_, ?_, ?_, ?_, ?_, ?_⟩
  · intro t2 ht2
    rw [ParseToken, hns, hdec]
    simp [GenerateToken, expOK, lookupClaim, ht2]
  · simp [GenerateToken, lookupClaim]
  · simp [GenerateToken, lookupClaim]
  · simp [GenerateToken, lookupClaim]
  · simp [GenerateToken, lookupClaim]
  · intro secret2 t2 hsec
    rw [ParseToken, hns, hdec]
    have : (secret == secret2) = false := by
      simp [beq_eq_false_iff_ne]
      exact fun h => hsec h.symm
    simp [GenerateToken, this]

/-- C7 (witness): a concrete issued token parses with the issuing key to its
claims and fails with a different key. -/
theorem token_round_trip_witness :
    ParseToken (fun w => if w = "w" then some (GenerateToken 5 "admin" "sec" 1000) else none)
        1000 "w" "sec" = some (GenerateToken 5 "admin" "sec" 1000).claims ∧
    ParseToken (fun w => if w = "w" then some (GenerateToken 5 "admin" "sec" 1000) else none)
        1000 "w" "other" = none := by
  constructor
  · exact (token_round_trip
      (fun w => if w = "w" then some (GenerateToken 5 "admin" "sec" 1000) else none)
      "w" 5 "admin" "sec" 1000 (by decide) (by decide)).1 1000 (by decide)
  · exact (token_round_trip
      (fun w => if w = "w" then some (GenerateToken 5 "admin" "sec" 1000) else none)
      "w" 5 "admin" "sec" 1000 (by decide) (by decide)).2.2.2.2.2 "other" 1000 (by decide)

/-- Helper: composing a list of entry/exit-recording stages with
applyMiddleware produces the nested trace — entry events in list order, the
terminal handler's trace, then exit events in reverse list order, so the
first-listed stage runs first on the way in and last on the way out. -/
theorem applyMiddleware_wrapStages (names : List String) (h : HandlerFunc) (r : Request) :
    applyMiddleware h (names.map wrapStage) r =
      ⟨(names.map fun n => n ++ ":in") ++ (h r).trace
         ++ (names.reverse.map fun n => n ++ ":out"),
       (h r).panicVal⟩ := by
  induction names with
  | nil => simp [applyMiddleware]
  | cons n rest ih =>
    show wrapStage n (applyMiddleware h (rest.map wrapStage)) r = _
    simp only [wrapStage, ih, List.reverse_cons, List.map_append, List.map_cons,
      List.map_nil, List.cons_append, List.append_assoc, List.append_nil, List.nil_append]

/-- C8: Apply composes exactly request logging outermost, then panic recovery,
then CORS, then user-agent logging around the terminal handler; and
applyMiddleware composes any stage list with the first-listed stage outermost
— on entry/exit-recording stages the first-listed stage's entry event comes
first and its exit event last. -/
theorem middleware_composition_order :
    (∀ h : HandlerFunc,
        Apply h = requestLoggingMiddleware
          (recoveryMiddleware (corsMiddleware (userAgentLogMiddleware h)))) ∧
    (∀ (h : HandlerFunc) (m : Middleware) (ms : List Middleware),
        applyMiddleware h (m :: ms) = m (applyMiddleware h ms)) ∧
    (∀ (names : List String) (h : HandlerFunc) (r : Request),
        applyMiddleware h (names.map wrapStage) r =
          ⟨(names.map fun n => n ++ ":in") ++ (h r).trace
             ++ (names.reverse.map fun n => n ++ ":out"),
           (h r).panicVal⟩) :=
  ⟨fun _ => rfl, fun _ _ _ => rfl, applyMiddleware_wrapStages⟩

/-- Helper: a client whose requests all fall inside one window keeps its entry
(never reset), the count incrementing by one per request; the i-th request of
the run is admitted exactly while the incremented count stays at or below the
cap. -/
theorem runRateLimit_window_chain (ip : String) (w : Int) :
    ∀ (ts : List Int), (∀ t ∈ ts, w ≤ t ∧ t ≤ w + 60) →
      ∀ (tprev k : Int), w ≤ tprev →
        (runRateLimit [(ip, ⟨tprev, k⟩)] ip ts).2
          = (List.range ts.length).map (fun i : Nat => decide (k + (i : Int) + 1 ≤ 60)) := by
  intro ts
  induction ts with
  | nil => intro _ tprev k _; rfl
  | cons t ts ih =>
    intro hin tprev k hprev
    have ht : w ≤ t ∧ t ≤ w + 60 := hin t (by simp)
    have hgap : ¬(t - tprev > limitWindow) := by
      simp only [limitWindow]
      omega
    have hstep : RateLimit [(ip, ⟨tprev, k⟩)] ip t
        = ([(ip, ⟨t, k + 1⟩)], decide (k + 1 ≤ 60)) := by
      by_cases hc : k + 1 ≤ (60 : Int)
      · have h1 : ¬(requestCap < k + 1) := by simp only [requestCap]; omega
        simp [RateLimit, lookupVisitor, setVisitor, hgap, h1, hc]
      · have h1 : requestCap < k + 1 := by simp only [requestCap]; omega
        simp [RateLimit, lookupVisitor, setVisitor, hgap, h1, hc]
    have hrest := ih (fun x hx => hin x (List.mem_cons_of_mem _ hx)) t (k + 1) ht.1
    simp only [runRateLimit, hstep, hrest, List.length_cons, List.range_succ_eq_map,
      List.map_cons, List.map_map, Nat.cast_zero, add_zero, List.cons.injEq]
    refine ⟨trivial, ?_⟩
    refine List.map_congr_left ?_
    intro i _
    simp only [Function.comp_apply]
    rw [decide_eq_decide]
    push_cast
    omega

/-- C5: starting with no entry for the client, 61 requests inside one
60-second window admit exactly the first 60 and reject the 61st with the
rate-limit error; and whenever a request arrives more than the window after
the entry's last-seen time, it is admitted and the stored entry is reset to
count 1 at the new time. -/
theorem rateLimit_window_property :
    (∀ (ip : String) (w t1 : Int) (ts : List Int),
       ts.length = 60 → w ≤ t1 → t1 ≤ w + 60 →
       (∀ t ∈ ts, w ≤ t ∧ t ≤ w + 60) →
       (runRateLimit [] ip (t1 :: ts)).2 = List.replicate 60 true ++ [false]) ∧
    (∀ (vs : Visitors) (ip : String) (e : RateLimitEntry) (now : Int),
       lookupVisitor vs ip = some e → now - e.LastSeen > limitWindow →
       RateLimit vs ip now = (setVisitor vs ip ⟨now, 1⟩, true)) := by
  constructor
  · intro ip w t1 ts hlen h1 h2 hin
    have hfirst : RateLimit [] ip t1 = ([(ip, ⟨t1, 1⟩)], true) := rfl
    have hrest := runRateLimit_window_chain ip w ts hin t1 1 h1
    simp only [runRateLimit, hfirst, hrest, hlen]
    decide
  · intro vs ip e now hlook hwin
    simp [RateLimit, hlook, hwin]

/-- C5 (witness): 61 simultaneous requests from one address starting with an
empty map — first 60 admitted, 61st rejected — and a reset after the window. -/
theorem rateLimit_window_property_witness :
    (runRateLimit [] "1.2.3.4:5" ((0:Int) :: List.replicate 60 (0:Int))).2
        = List.replicate 60 true ++ [false] ∧
    RateLimit [("1.2.3.4:5", ⟨0, 5⟩)] "1.2.3.4:5" 100
        = ([("1.2.3.4:5", ⟨100, 1⟩)], true) := by
  constructor
  · exact rateLimit_window_property.1 "1.2.3.4:5" 0 0 (List.replicate 60 0)
      (by decide) (by decide) (by decide) (by decide)
  · exact (rateLimit_window_property.2 [("1.2.3.4:5", ⟨0, 5⟩)] "1.2.3.4:5" ⟨0, 5⟩ 100
      (by decide) (by decide)).trans (by decide)

end BookAPI
